import Mathlib

/-!
Verification of the firecamp controldb RPC client (`db/controldb/client`,
`src/unnamed/part_000`) and of the service-creation orchestrator scenarios of
`src/manage/service/service_testutil.go`, checked against the repository's
natural-language specification.

The client is embedded as a pure state machine: the gRPC environment (dial
outcomes, per-attempt RPC outcomes, interference by concurrent requests) is an
explicit oracle, and every Go method becomes a Lean function on that oracle and
on the client state.
-/

namespace Firecamp

/-- Retry bound of every client call (source `part_000` line 21). -/
def maxRetryCount : Nat := 3

/-- Fixed back-off, in seconds, slept before a retry (source `part_000` line 22). -/
def sleepSecondsBeforeRetry : Nat := 2

/-- The gRPC status code attached to an error.  The server transports its
application-level errors with code `unknown`; every other code is a
transport-layer (grpc) error.  Only the distinction against `unknown` matters
to the client, the remaining constructors are representative transport codes. -/
inductive GrpcCode where
  | ok
  | unknown
  | unavailable
  | deadlineExceeded
  | internalCode
  deriving DecidableEq, Repr

/-- A non-nil Go `error` coming back from a gRPC invocation: its code
(`grpc.Code(err)`) and its description (`grpc.ErrorDesc(err)`). -/
structure GrpcError where
  code : GrpcCode
  desc : String
  deriving DecidableEq, Repr

/-- Modelled from the spec: the stable application-level error string
`db.StrErrDBInternal` of the `db` package (the package is not under `src/`;
only the distinctness and stability of the four strings matters). -/
def strErrDBInternal : String := "DB Internal Error"

/-- Modelled from the spec: the stable string `db.StrErrDBInvalidRequest`. -/
def strErrDBInvalidRequest : String := "DB Invalid Request"

/-- Modelled from the spec: the stable string `db.StrErrDBRecordNotFound`. -/
def strErrDBRecordNotFound : String := "DB Record Not Found"

/-- Modelled from the spec: the stable string `db.StrErrDBConditionalCheckFailed`. -/
def strErrDBConditionalCheckFailed : String := "DB Conditional Check Failed"

/-- An error as surfaced to the caller of the client: either one of the four
enumerated db errors (`db.ErrDBInternal` etc.), or an untranslated Go error
carried through unchanged (constructor `grpc` keeps its code and description). -/
inductive Err where
  | dbInternal
  | dbInvalidRequest
  | dbRecordNotFound
  | dbConditionalCheckFailed
  | grpc (code : GrpcCode) (desc : String)
  deriving DecidableEq, Repr

/-- Whether an `Err` is one of the four enumerated db error kinds. -/
def isEnumerated : Err → Bool
  | .grpc _ _ => false
  | _ => true

/-- Source `part_000` lines 119-134: `checkAndConvertError` matches the error
description against the four stable strings and otherwise returns the original
error unchanged. -/
def checkAndConvertError (e : GrpcError) : Err :=
  if e.desc = strErrDBInternal then .dbInternal
  else if e.desc = strErrDBInvalidRequest then .dbInvalidRequest
  else if e.desc = strErrDBRecordNotFound then .dbRecordNotFound
  else if e.desc = strErrDBConditionalCheckFailed then .dbConditionalCheckFailed
  else .grpc e.code e.desc

/-- The `pbclient` struct of `part_000` lines 34-39.  `id` models the Go
pointer identity (`c.cli != cli` is pointer comparison); `hasConn` and
`hasStub` model non-nilness of the `conn` and `dbcli` fields. -/
structure Pbclient where
  id : Nat
  isConnGood : Bool
  hasConn : Bool
  hasStub : Bool
  deriving DecidableEq, Repr

/-- The mutable state of `ControlDBCli` (`part_000` lines 26-32): the shared
handle, plus bookkeeping of which connection ids have been `Close`d and the
next fresh pointer identity. -/
structure CliState where
  cli : Pbclient
  closedIds : List Nat
  nextId : Nat
  deriving DecidableEq, Repr

/-- Source `part_000` lines 61-85: under the lock, re-check `isConnGood`; on a
successful dial install a fresh healthy handle, on a failed dial return the
existing handle unchanged (with its nil conn and nil stub). -/
def connect (s : CliState) (dialOk : Bool) : CliState :=
  if s.cli.isConnGood then s
  else if dialOk then
    { cli := { id := s.nextId, isConnGood := true, hasConn := true, hasStub := true },
      closedIds := s.closedIds,
      nextId := s.nextId + 1 }
  else s

/-- Source `part_000` lines 41-50: `NewControlDBCli` starts from
`&pbclient{isConnGood: false}` (nil conn, nil stub) and calls `connect`. -/
def newControlDBCli (dialOk : Bool) : CliState :=
  connect { cli := { id := 0, isConnGood := false, hasConn := false, hasStub := false },
            closedIds := [], nextId := 1 } dialOk

/-- Source `part_000` lines 52-59: return the handle if healthy, else connect. -/
def getCli (s : CliState) (dialOk : Bool) : CliState :=
  if s.cli.isConnGood then s else connect s dialOk

/-- An RPC invocation `cli.dbcli.Method(...)` dereferences the `dbcli` stub.
When the stub is nil (the dial never succeeded) this is a method call on a nil
interface, modelled as `none` (a crash), never a normal error return. -/
def invokeOnStub (h : Pbclient) : Option Unit :=
  if h.hasStub then some () else none

/-- The state after flipping the current handle unhealthy and closing its
connection. -/
def failedState (s : CliState) : CliState :=
  { s with
    cli := { s.cli with isConnGood := false }
    closedIds := s.cli.id :: s.closedIds }

/-- Source `part_000` lines 87-109: `markClientFailed`.  If the current handle
is already unhealthy, report no change; if the current handle differs from the
failed one, report a change; else flip `isConnGood` and close the connection. -/
def markClientFailed (s : CliState) (h : Pbclient) : CliState × Bool :=
  if s.cli.isConnGood = false then (s, false)
  else if s.cli.id ≠ h.id then (s, true)
  else (failedState s, false)

/-- Source `part_000` lines 111-117: sleep `sleepSecondsBeforeRetry` seconds
exactly when `markClientFailed` reported no change.  The second component is
the number of seconds slept. -/
def markClientFailedAndSleep (s : CliState) (h : Pbclient) : CliState × Nat :=
  let r := markClientFailed s h
  (r.1, if r.2 then 0 else sleepSecondsBeforeRetry)

/-- Source `part_000` lines 136-146: `CreateSystemTables` is `return nil`.
The second component counts RPCs issued to the server (always zero). -/
def createSystemTables (_ : CliState) : Option Err × Nat := (none, 0)

/-- Source `part_000` lines 144-146: `DeleteSystemTables` is `return nil`. -/
def deleteSystemTables (_ : CliState) : Option Err × Nat := (none, 0)

/-- Modelled from the spec: `db.TableStatusActive` of the `db` package (not
under `src/`); its exact text is immaterial, it is the constant the client
returns. -/
def TableStatusActive : String := "ACTIVE"

/-- Source `part_000` lines 140-142: `SystemTablesReady` returns
`(db.TableStatusActive, true, nil)` unconditionally; zero RPCs are issued. -/
def systemTablesReady (_ : CliState) : (String × Bool × Option Err) × Nat :=
  ((TableStatusActive, true, none), 0)

/-- Outcome of one RPC attempt inside the retry loop. -/
inductive Attempt (α : Type) where
  | ok (v : α)
  | fail (e : GrpcError)
  deriving DecidableEq, Repr

/-- The environment of one iteration of the retry loop: the attempt outcome,
and whether some concurrent request had already replaced the (healthy) handle
before `markClientFailed` ran, which makes it report a change. -/
structure Round (α : Type) where
  attempt : Attempt α
  otherReconnected : Bool

/-- What one client call produced for its caller. -/
inductive CallResult (α : Type) where
  | ok (v : α)
  | fail (e : Err)
  deriving DecidableEq, Repr

/-- Observable trace of one client call: the result returned to the caller,
how many RPC attempts were made, and, for every attempt that failed with a
transport error, the back-off slept after it (`none` when the loop retried
immediately because the handle had changed). -/
structure RetryTrace (α : Type) where
  result : CallResult α
  attemptsMade : Nat
  sleeps : List (Option Nat)
  deriving DecidableEq, Repr

/-- The retry envelope shared verbatim by every unary method of `part_000`
(e.g. `CreateDevice`, lines 159-176): run attempts `i`, `i+1`, … while fuel
remains; return on success; on an `unknown`-coded error return
`checkAndConvertError` at once; on a transport error record the back-off and
retry; when the fuel is exhausted return the last error unchanged. -/
def runRetryFrom {α : Type} (env : Nat → Round α) (i : Nat) (last : Option GrpcError) :
    Nat → RetryTrace α
  | 0 =>
    { result := match last with
        | some e => .fail (.grpc e.code e.desc)
        | none => .fail (.grpc .unknown "")
      attemptsMade := 0
      sleeps := [] }
  | k + 1 =>
    match (env i).attempt with
    | .ok v => { result := .ok v, attemptsMade := 1, sleeps := [] }
    | .fail e =>
      if e.code = .unknown then
        { result := .fail (checkAndConvertError e), attemptsMade := 1, sleeps := [] }
      else
        let slept := if (env i).otherReconnected then none else some sleepSecondsBeforeRetry
        let rest := runRetryFrom env (i + 1) (some e) k
        { result := rest.result
          attemptsMade := rest.attemptsMade + 1
          sleeps := slept :: rest.sleeps }

/-- One full client call: the retry loop of `part_000` starting at attempt 0
with `maxRetryCount` fuel. -/
def runRetry {α : Type} (env : Nat → Round α) : RetryTrace α :=
  runRetryFrom env 0 none maxRetryCount

/-- Whether a round failed with a transport error (a non-`unknown` code). -/
def isTransportFail {α : Type} (r : Round α) : Bool :=
  match r.attempt with
  | .fail e => decide (e.code ≠ .unknown)
  | .ok _ => false

/-- How the server stream of a `List*` call ended. -/
inductive StreamEnd where
  | eof
  | recvErr (e : GrpcError)
  deriving DecidableEq, Repr

/-- The environment of one `List*` attempt: either the stream failed to open,
or it delivered `items` and then ended (end-of-stream or a receive error). -/
inductive ListAttempt (α : Type) where
  | openErr (e : GrpcError)
  | streamed (items : List α) (ending : StreamEnd)
  deriving DecidableEq, Repr

/-- Source `part_000` lines 245-275 (`listDevices`; `listServices` and
`listVolumes` are verbatim copies): consume the stream until `io.EOF` and
return everything received; any receive error fails the whole attempt and the
partial slice is discarded (the Go function returns `nil, err`). -/
def runListAttempt {α : Type} (s : ListAttempt α) : Attempt (List α) :=
  match s with
  | .openErr e => .fail e
  | .streamed items ending =>
    match ending with
    | .eof => .ok items
    | .recvErr e => .fail e

/-- Environment of one iteration of a `List*` retry loop. -/
structure ListRound (α : Type) where
  stream : ListAttempt α
  otherReconnected : Bool

/-- Source `part_000` lines 277-305: `ListDevices` wraps `listDevices` in the
same retry envelope; every attempt opens and consumes a fresh stream. -/
def runListRetry {α : Type} (env : Nat → ListRound α) : RetryTrace (List α) :=
  runRetry (fun i => ⟨runListAttempt (env i).stream, (env i).otherReconnected⟩)

/-! ### Member naming (the `utils` package is not under `src/`) -/

/-- Little-endian decimal digits of a number, with explicit fuel (the number
itself suffices, since dividing by ten strictly decreases it). -/
def natDigitsRevFuel : Nat → Nat → List Nat
  | 0, _ => []
  | _ + 1, 0 => []
  | f + 1, m + 1 => ((m + 1) % 10) :: natDigitsRevFuel f ((m + 1) / 10)

/-- Little-endian decimal digits of `n` (empty for zero). -/
def natDigitsRev (n : Nat) : List Nat := natDigitsRevFuel n n

/-- The ASCII character of a decimal digit. -/
def digitChar (d : Nat) : Char := Char.ofNat (48 + d)

/-- Big-endian decimal character rendering of a number, no padding. -/
def natDecimalChars (n : Nat) : List Char :=
  if n = 0 then [digitChar 0] else (natDigitsRev n).reverse.map digitChar

/-- Decimal string of a number. -/
def natDecimalStr (n : Nat) : String := String.mk (natDecimalChars n)

/-- Modelled from the spec: `utils.GenServiceMemberName` builds the member
name `<serviceName>-<ordinal>` with the ordinal as decimal, no padding. -/
def genServiceMemberName (svc : String) (i : Nat) : String :=
  svc ++ "-" ++ natDecimalStr i

/-- Whether a character is an ASCII decimal digit. -/
def isDigitChar (c : Char) : Bool := 48 ≤ c.toNat && c.toNat ≤ 57

/-- Numeric value of an ASCII decimal digit. -/
def digitVal (c : Char) : Nat := c.toNat - 48

/-- Parse a non-empty all-digit character list as a decimal number. -/
def parseNatChars (cs : List Char) : Option Nat :=
  if cs.isEmpty then none
  else if cs.all isDigitChar then
    some (cs.foldl (fun a c => 10 * a + digitVal c) 0)
  else none

/-- Modelled from the spec: `utils.GetServiceMemberIndex` parses the ordinal
back from the field after the last `-` separator of the member name. -/
def getServiceMemberIndex (memberName : String) : Option Nat :=
  parseNatChars ((memberName.data.reverse.takeWhile (fun c => c ≠ '-')).reverse)

/-- Value of a little-endian decimal digit list. -/
def valLE : List Nat → Nat
  | [] => 0
  | d :: ds => d + 10 * valLE ds

/-! ### Metadata store and service-creation orchestrator.

The orchestrator (`ManageService.CreateService` and its helpers) is code of
this repository that is not under `src/` — only its test harness
`service_testutil.go` is.  Everything below is therefore modelled from the
spec (sections 3, 4.2, 4.3, 4.4 and 6) and exercised on the concrete
scenarios that the test harness encodes. -/

/-- Status of a `ServiceAttr` record (spec section 4.4 state machine). -/
inductive SvcStatus where
  | creating
  | active
  | deleting
  | deleted
  deriving DecidableEq, Repr

/-- The logical volume plan of a service: a primary device name and an
optional journal device name (spec section 3, *ServiceVolumes*). -/
structure ServiceVols where
  primaryDeviceName : String
  journalDeviceName : Option String
  deriving DecidableEq, Repr

/-- Modelled from the spec: the `ServiceAttr` record (spec section 3). -/
structure SvcAttr where
  uuid : String
  serviceName : String
  replicas : Nat
  registerDNS : Bool
  requireStaticIP : Bool
  status : SvcStatus
  vols : ServiceVols
  deriving DecidableEq, Repr

/-- Modelled from the spec: a `ServiceMember` row (spec section 3). -/
structure Member where
  uuid : String
  memberName : String
  staticIP : Option Nat
  primaryVolumeID : String
  journalVolumeID : Option String
  primaryDeviceName : String
  journalDeviceName : Option String
  cfgIDs : List String
  deriving DecidableEq, Repr

/-- Modelled from the spec: a `StaticIP` row; `none` in `memberName` means the
address is reserved for the service but not yet assigned to a member (spec
section 4.3).  The address is its host part within the zone CIDR. -/
structure IPRow where
  ip : Nat
  memberName : Option String
  deriving DecidableEq, Repr

/-- Modelled from the spec: the metadata store for one cluster and one
availability zone — Device rows `(deviceName, serviceName)`, Service rows
`(serviceName, uuid)`, ServiceAttr, ServiceMember, StaticIP and ConfigFile
rows, plus the DNS records upserted by step 7f. -/
structure Store where
  devices : List (String × String)
  services : List (String × String)
  attrs : List SvcAttr
  members : List Member
  ipRows : List IPRow
  cfgFiles : List String
  dnsRecords : List (String × String)
  deriving DecidableEq, Repr

/-- A store with no rows at all. -/
def emptyStore : Store := ⟨[], [], [], [], [], [], []⟩

/-- Device name of slot `n` in the allocator's deterministic sequence. -/
def devName (n : Nat) : String := "/dev/loop" ++ natDecimalStr n

/-- Whether a device name is already taken in the cluster. -/
def devUsed (st : Store) (d : String) : Bool :=
  st.devices.any (fun p => decide (p.1 = d))

/-- Fuel-bounded scan for the next free device name at or after slot `k`,
skipping taken names and the excluded name. -/
def nextFreeDevFuel (st : Store) (exclude : String) : Nat → Nat → String
  | 0, k => devName k
  | f + 1, k =>
    if devUsed st (devName k) || decide (devName k = exclude) then
      nextFreeDevFuel st exclude f (k + 1)
    else devName k

/-- Modelled from the spec: the device-name allocator (spec section 4.2).  If
a Device row already binds a name (other than the excluded one) to this
service, that name is returned; otherwise the lowest free name in the
sequence is written and returned. -/
def createDevice (st : Store) (svc : String) (exclude : String) : Store × String :=
  match st.devices.find? (fun p => decide (p.2 = svc ∧ p.1 ≠ exclude)) with
  | some p => (st, p.1)
  | none =>
    let d := nextFreeDevFuel st exclude (st.devices.length + 2) 1
    ({ st with devices := st.devices ++ [(d, svc)] }, d)

/-- Modelled from the spec: step 3 of the orchestrator — reuse the stored
service UUID, or insert a Service row with the fresh one. -/
def getOrCreateService (st : Store) (svc : String) (fresh : String) : Store × String :=
  match st.services.find? (fun p => decide (p.1 = svc)) with
  | some p => (st, p.2)
  | none => ({ st with services := st.services ++ [(svc, fresh)] }, fresh)

/-- Modelled from the spec: step 6 of the orchestrator — create the
ServiceAttr with status `creating`, or verify that the stored attributes
(replica count, register-DNS flag, static-IP flag) match the request; a
mismatch fails the call (`none`). -/
def getOrCreateAttr (st : Store) (uuid svc : String) (replicas : Nat)
    (registerDNS requireStatic : Bool) (vols : ServiceVols) : Option (Store × SvcAttr) :=
  match st.attrs.find? (fun a => decide (a.uuid = uuid)) with
  | some a =>
    if a.replicas = replicas ∧ a.registerDNS = registerDNS ∧ a.requireStaticIP = requireStatic then
      some (st, a)
    else none
  | none =>
    let a : SvcAttr := ⟨uuid, svc, replicas, registerDNS, requireStatic, .creating, vols⟩
    some ({ st with attrs := st.attrs ++ [a] }, a)

/-- Modelled from the spec: the first assignable host number of the zone CIDR
as reported by the test server's `GetCidrBlock` (CIDR `10.0.0.`, first host
4). -/
def cidrFirstHost : Nat := 4

/-- CIDR prefix of the single availability zone of the scenarios. -/
def ipBase : String := "10.0.0."

/-- Dotted-quad rendering of a host number in the zone CIDR. -/
def ipStr (n : Nat) : String := ipBase ++ natDecimalStr n

/-- Whether a host number is already reserved by a StaticIP row. -/
def ipUsed (st : Store) (n : Nat) : Bool :=
  st.ipRows.any (fun r => decide (r.ip = n))

/-- Fuel-bounded scan for the lowest free host number at or after `k`. -/
def nextFreeIPFuel (st : Store) : Nat → Nat → Nat
  | 0, k => k
  | f + 1, k => if ipUsed st k then nextFreeIPFuel st f (k + 1) else k

/-- Modelled from the spec: `createStaticIPsForZone` (spec section 4.3) —
reserve `count` fresh addresses, lowest numerically free first, as StaticIP
rows not yet assigned to any member. -/
def createStaticIPsForZone (st : Store) : Nat → Store × List Nat
  | 0 => (st, [])
  | c + 1 =>
    let n := nextFreeIPFuel st (st.ipRows.length + 1) cidrFirstHost
    let st2 := { st with ipRows := st.ipRows ++ [⟨n, none⟩] }
    let r := createStaticIPsForZone st2 c
    (r.1, n :: r.2)

/-- Assign a reserved address to a member (the conditional update of spec
section 4.3). -/
def assignIP (st : Store) (n : Nat) (m : String) : Store :=
  { st with ipRows := st.ipRows.map (fun r => if r.ip = n then ⟨r.ip, some m⟩ else r) }

/-- Host numbers reserved for the service but not yet assigned to a member. -/
def unassignedIPs (st : Store) : List Nat :=
  (st.ipRows.filter (fun r => r.memberName.isNone)).map (fun r => r.ip)

/-- Modelled from the spec: step 7c of the orchestrator — look up an already
assigned address for this member; else claim the lowest reserved-but-unassigned
one; else mint a fresh one via `createStaticIPsForZone` and claim it. -/
def resolveMemberIP (st : Store) (m : String) : Store × Nat :=
  match st.ipRows.find? (fun r => decide (r.memberName = some m)) with
  | some r => (st, r.ip)
  | none =>
    match (unassignedIPs st).min? with
    | some n => (assignIP st n m, n)
    | none =>
      let r := createStaticIPsForZone st 1
      match r.2 with
      | n :: _ => (assignIP r.1 n m, n)
      | [] => (r.1, 0)

/-- Deterministic cloud-volume identity: the volume adapter dedupes on the
tags `(serviceUUID, memberName, role)` (spec step 7d). -/
def volID (uuid m role : String) : String := uuid ++ "-" ++ m ++ "-" ++ role

/-- Content-addressed config-file id (spec section 3: `fileID` is a hash of
the content; the hash is modelled as the content itself, which is injective). -/
def cfgFileID (content : String) : String := "md5-" ++ content

/-- Modelled from the spec: `checkAndCreateConfigFile` (spec step 7b) —
idempotent creation of the content-addressed ConfigFile row. -/
def checkAndCreateConfigFile (st : Store) (content : String) : Store × String :=
  let fid := cfgFileID content
  if st.cfgFiles.contains fid then (st, fid)
  else ({ st with cfgFiles := st.cfgFiles ++ [fid] }, fid)

/-- Upsert of one DNS record (spec step 7f). -/
def dnsUpsert (st : Store) (fqdn target : String) : Store :=
  if st.dnsRecords.any (fun p => decide (p.1 = fqdn)) then
    { st with dnsRecords := st.dnsRecords.map (fun p => if p.1 = fqdn then (fqdn, target) else p) }
  else { st with dnsRecords := st.dnsRecords ++ [(fqdn, target)] }

/-- Domain used by every scenario of the test harness. -/
def domainName : String := "example.com"

/-- The ServiceMember row written for one member: volume ids from the
deterministic tags, device names inherited from the ServiceAttr. -/
def mkMember (attr : SvcAttr) (m : String) (ipOpt : Option Nat) (cfgIDs : List String) : Member :=
  { uuid := attr.uuid
    memberName := m
    staticIP := ipOpt
    primaryVolumeID := volID attr.uuid m "primary"
    journalVolumeID := attr.vols.journalDeviceName.map (fun _ => volID attr.uuid m "journal")
    primaryDeviceName := attr.vols.primaryDeviceName
    journalDeviceName := attr.vols.journalDeviceName
    cfgIDs := cfgIDs }

/-- Modelled from the spec: `createServiceMember` — write the member row
conditional on absence (an existing row is a no-op success, spec step 7e) and
record the address assignment. -/
def createServiceMember (st : Store) (attr : SvcAttr) (m : String) (ipOpt : Option Nat)
    (cfgIDs : List String) : Store :=
  if st.members.any (fun x => decide (x.memberName = m)) then st
  else
    let st1 := match ipOpt with
      | some n => assignIP st n m
      | none => st
    { st1 with members := st1.members ++ [mkMember attr m ipOpt cfgIDs] }

/-- Step 7c for one member: resolve the member's static address when the
service requires one (no address otherwise). -/
def memberIPStep (st : Store) (requireStatic : Bool) (m : String) : Store × Option Nat :=
  if requireStatic then
    let r := resolveMemberIP st m
    (r.1, some r.2)
  else (st, none)

/-- Step 7f for one member: upsert the member's DNS record when registration
is on, pointing at the static address when one was assigned. -/
def dnsStep (st : Store) (registerDNS : Bool) (m : String) (ipOpt : Option Nat) : Store :=
  if registerDNS then
    dnsUpsert st (m ++ "." ++ domainName) (match ipOpt with | some n => ipStr n | none => m)
  else st

/-- Modelled from the spec: step 7 of the orchestrator for one ordinal —
config files, static address, member row, DNS record. -/
def createOneMember (st : Store) (attr : SvcAttr) (cfgContent : String) (i : Nat) : Store :=
  let m := genServiceMemberName attr.serviceName i
  let c1 := checkAndCreateConfigFile st cfgContent
  let w := memberIPStep c1.1 attr.requireStaticIP m
  dnsStep (createServiceMember w.1 attr m w.2 [c1.2]) attr.registerDNS m w.2

/-- Members are processed in ascending ordinal order (spec section 4.4). -/
def createMembers (st : Store) (attr : SvcAttr) (cfgContent : String) : List Nat → Store
  | [] => st
  | i :: rest => createMembers (createOneMember st attr cfgContent i) attr cfgContent rest

/-- Modelled from the spec: step 8 — conditional update of the ServiceAttr
status from `creating` to `active`; a call on an `active` attr is a no-op. -/
def setServiceInitialized (st : Store) (uuid : String) : Store :=
  { st with attrs := st.attrs.map (fun a =>
      if a.uuid = uuid ∧ a.status = SvcStatus.creating then { a with status := .active } else a) }

/-- The fields of a `CreateServiceRequest` the orchestrator consumes. -/
structure CreateReq where
  serviceName : String
  replicas : Nat
  registerDNS : Bool
  requireStaticIP : Bool
  hasJournal : Bool
  cfgContent : String
  deriving DecidableEq, Repr

/-- Steps 1-2 of the orchestrator: allocate the primary device, and, when the
request has a journal volume, the journal device with the primary name as the
exclusion hint.  Returns the store, the primary and the optional journal
device name. -/
def deviceStage (st : Store) (req : CreateReq) : Store × String × Option String :=
  let d1 := createDevice st req.serviceName ""
  if req.hasJournal then
    let j := createDevice d1.1 req.serviceName d1.2
    (j.1, d1.2, some j.2)
  else (d1.1, d1.2, none)

/-- Modelled from the spec: the whole `CreateService` workflow, steps 1-8 of
spec section 4.4.  `freshUUID` is the UUID generated in step 3 when no
Service row exists yet.  The only modelled failure is the step-6 attribute
mismatch. -/
def createService (st : Store) (req : CreateReq) (freshUUID : String) :
    Option (Store × String) :=
  let ds := deviceStage st req
  let sv := getOrCreateService ds.1 req.serviceName freshUUID
  match getOrCreateAttr sv.1 sv.2 req.serviceName req.replicas req.registerDNS
      req.requireStaticIP ⟨ds.2.1, ds.2.2⟩ with
  | none => none
  | some (st4, attr) =>
    let st5 := createMembers st4 attr req.cfgContent (List.range req.replicas)
    some (setServiceInitialized st5 sv.2, sv.2)

/-! ### Concrete scenarios of `service_testutil.go` -/

/-- Static-IP retry scenario store: a Device row `/dev/loop1` and a Service
row for `service-0` pre-created before `CreateService` runs. -/
def c6Store : Store :=
  { emptyStore with
    devices := [("/dev/loop1", "service-0")]
    services := [("service-0", "uuid-pre")] }

/-- Static-IP retry scenario request: 3 replicas, journal volume, static
addresses, DNS registration. -/
def c6Req : CreateReq := ⟨"service-0", 3, true, true, true, "service-0"⟩

/-- Outcome of `CreateService` in the static-IP retry scenario. -/
def c6Result : Option (Store × String) := createService c6Store c6Req "uuid-fresh"

/-- Partial-pre-creation scenario, service name. -/
def c7Svc : String := "service-3"

/-- Partial-pre-creation scenario, the pre-created service UUID. -/
def c7UUID : String := "uuid-service-3"

/-- Pre-creation step: the Device row. -/
def c7a : Store × String := createDevice emptyStore c7Svc ""

/-- Pre-creation step: the Service row. -/
def c7b : Store × String := getOrCreateService c7a.1 c7Svc c7UUID

/-- Pre-creation step: the ServiceAttr at status `creating`. -/
def c7Attr : SvcAttr := ⟨c7UUID, c7Svc, 3, true, true, .creating, ⟨c7a.2, none⟩⟩

/-- Store after pre-creating the ServiceAttr. -/
def c7c : Store := { c7b.1 with attrs := c7b.1.attrs ++ [c7Attr] }

/-- Pre-creation step: member 0's config file. -/
def c7d : Store × String := checkAndCreateConfigFile c7c c7Svc

/-- Pre-creation step: mint one static address (host 4) for member 0. -/
def c7e : Store × List Nat := createStaticIPsForZone c7d.1 1

/-- Member 0's name. -/
def c7Member0 : String := genServiceMemberName c7Svc 0

/-- Pre-creation step: the member-0 row, claiming the minted address. -/
def c7f : Store := createServiceMember c7e.1 c7Attr c7Member0 c7e.2.head? [c7d.2]

/-- Pre-creation step: one more minted address (host 5) that stays
unassigned — the leftover a later member must claim. -/
def c7g : Store × List Nat := createStaticIPsForZone c7f 1

/-- Partial-pre-creation scenario request: 3 replicas, static addresses, no
journal. -/
def c7Req : CreateReq := ⟨c7Svc, 3, true, true, false, c7Svc⟩

/-- Outcome of `CreateService` in the partial-pre-creation scenario. -/
def c7Result : Option (Store × String) := createService c7g.1 c7Req "uuid-fresh7"

/-- Member names of a store, in row order. -/
def memberNames (st : Store) : List String := st.members.map (fun m => m.memberName)

/-- Ordinals parsed back from the member names a fresh `CreateService` run
leaves behind (`[none]`, never equal to any honest answer, when the call
fails). -/
def createdOrdinals (req : CreateReq) (u : String) : List (Option Nat) :=
  match createService emptyStore req u with
  | some (st, _) => st.members.map (fun m => getServiceMemberIndex m.memberName)
  | none => [none]

/-- An environment in which every RPC attempt fails with the same transport
error and no concurrent request ever reconnects. -/
def envAllTransport : Nat → Round Unit :=
  fun _ => ⟨.fail ⟨.unavailable, "connection reset"⟩, false⟩

/-- An environment in which every RPC attempt fails with an `unknown`-coded
error whose description matches none of the four stable strings. -/
def envUnknownOther : Nat → Round Unit :=
  fun _ => ⟨.fail ⟨.unknown, "some unexpected error"⟩, false⟩

/-- A `markClientFailed` state in which the original handle (id 0) has been
replaced by a fresh handle (id 1) that has itself already been marked
unhealthy. -/
def c2BadState : CliState := { cli := ⟨1, false, false, false⟩, closedIds := [], nextId := 2 }

/-- The stale handle (id 0) a retrying caller still holds in the state above. -/
def c2OldHandle : Pbclient := ⟨0, true, true, true⟩

/-- A healthy client state used to exercise the mark-failed flip. -/
def c2GoodState : CliState := { cli := ⟨5, true, true, true⟩, closedIds := [], nextId := 6 }

/-- A list environment whose first stream delivers three items and ends
cleanly. -/
def c5Env : Nat → ListRound Nat := fun _ => ⟨.streamed [1, 2, 3] .eof, false⟩

/-! ### Lemmas about the retry envelope -/

theorem runRetryFrom_succ_ok {α : Type} (env : Nat → Round α) (i : Nat)
    (last : Option GrpcError) (k : Nat) (v : α) (ha : (env i).attempt = .ok v) :
    runRetryFrom env i last (k + 1) = { result := .ok v, attemptsMade := 1, sleeps := [] } := by
  simp [runRetryFrom, ha]

theorem runRetryFrom_succ_unknown {α : Type} (env : Nat → Round α) (i : Nat)
    (last : Option GrpcError) (k : Nat) (e : GrpcError) (ha : (env i).attempt = .fail e)
    (hcode : e.code = GrpcCode.unknown) :
    runRetryFrom env i last (k + 1) =
      { result := .fail (checkAndConvertError e), attemptsMade := 1, sleeps := [] } := by
  simp [runRetryFrom, ha, hcode]

theorem runRetryFrom_succ_transport {α : Type} (env : Nat → Round α) (i : Nat)
    (last : Option GrpcError) (k : Nat) (e : GrpcError) (ha : (env i).attempt = .fail e)
    (hcode : ¬ e.code = GrpcCode.unknown) :
    runRetryFrom env i last (k + 1) =
      { result := (runRetryFrom env (i + 1) (some e) k).result
        attemptsMade := (runRetryFrom env (i + 1) (some e) k).attemptsMade + 1
        sleeps := (if (env i).otherReconnected then none else some sleepSecondsBeforeRetry) ::
          (runRetryFrom env (i + 1) (some e) k).sleeps } := by
  simp [runRetryFrom, ha, hcode]

theorem runRetryFrom_attempts_le {α : Type} (env : Nat → Round α) :
    ∀ (k i : Nat) (last : Option GrpcError), (runRetryFrom env i last k).attemptsMade ≤ k := by
  intro k
  induction k with
  | zero => intro i last; simp [runRetryFrom]
  | succ k ih =>
    intro i last
    cases ha : (env i).attempt with
    | ok v =>
      rw [runRetryFrom_succ_ok env i last k v ha]
      dsimp only
      omega
    | fail e =>
      by_cases hc : e.code = GrpcCode.unknown
      · rw [runRetryFrom_succ_unknown env i last k e ha hc]
        dsimp only
        omega
      · rw [runRetryFrom_succ_transport env i last k e ha hc]
        dsimp only
        exact Nat.succ_le_succ (ih (i + 1) (some e))

theorem runRetryFrom_sleeps {α : Type} (env : Nat → Round α) :
    ∀ (k i : Nat) (last : Option GrpcError) (j : Nat) (opt : Option Nat),
      (runRetryFrom env i last k).sleeps.get? j = some opt →
      opt = if (env (i + j)).otherReconnected then none else some sleepSecondsBeforeRetry := by
  intro k
  induction k with
  | zero => intro i last j opt h; simp [runRetryFrom] at h
  | succ k ih =>
    intro i last j opt h
    cases ha : (env i).attempt with
    | ok v =>
      rw [runRetryFrom_succ_ok env i last k v ha] at h
      dsimp only at h
      simp at h
    | fail e =>
      by_cases hc : e.code = GrpcCode.unknown
      · rw [runRetryFrom_succ_unknown env i last k e ha hc] at h
        dsimp only at h
        simp at h
      · rw [runRetryFrom_succ_transport env i last k e ha hc] at h
        dsimp only at h
        cases j with
        | zero =>
          rw [List.get?_cons_zero] at h
          simp only [Option.some.injEq] at h
          exact h.symm
        | succ j =>
          rw [List.get?_cons_succ] at h
          have := ih (i + 1) (some e) j opt h
          rw [show i + (j + 1) = i + 1 + j by omega]
          exact this

theorem runRetryFrom_transport {α : Type} (env : Nat → Round α) :
    ∀ (k i : Nat) (last : Option GrpcError) (c : GrpcCode) (d : String),
      c ≠ GrpcCode.unknown →
      (runRetryFrom env i last k).result = .fail (.grpc c d) →
      (runRetryFrom env i last k).attemptsMade = k ∧
      (∀ j, j < k → isTransportFail (env (i + j)) = true) ∧
      (k = 0 → last = some ⟨c, d⟩) ∧
      (0 < k → (env (i + k - 1)).attempt = .fail ⟨c, d⟩) := by
  intro k
  induction k with
  | zero =>
    intro i last c d hc hres
    cases last with
    | none =>
      exfalso
      simp [runRetryFrom] at hres
      exact hc hres.1.symm
    | some e =>
      simp [runRetryFrom] at hres
      obtain ⟨h1, h2⟩ := hres
      refine ⟨by simp [runRetryFrom], fun j hj => absurd hj (by omega), fun _ => ?_,
        fun h0 => absurd h0 (by omega)⟩
      cases e
      simp_all
  | succ k ih =>
    intro i last c d hc hres
    cases ha : (env i).attempt with
    | ok v =>
      exfalso
      rw [runRetryFrom_succ_ok env i last k v ha] at hres
      dsimp only at hres
      simp at hres
    | fail e =>
      by_cases hcode : e.code = GrpcCode.unknown
      · exfalso
        rw [runRetryFrom_succ_unknown env i last k e ha hcode] at hres
        dsimp only at hres
        simp only [CallResult.fail.injEq] at hres
        unfold checkAndConvertError at hres
        split_ifs at hres
        simp_all
      · rw [runRetryFrom_succ_transport env i last k e ha hcode] at hres
        dsimp only at hres
        have hr := ih (i + 1) (some e) c d hc hres
        refine ⟨?_, ?_, ?_, ?_⟩
        · rw [runRetryFrom_succ_transport env i last k e ha hcode]
          dsimp only
          rw [hr.1]
        · intro j hj
          cases j with
          | zero => simp [isTransportFail, ha, hcode]
          | succ j =>
            have := hr.2.1 j (by omega)
            rw [show i + (j + 1) = i + 1 + j by omega]
            exact this
        · intro h0
          exact absurd h0 (by omega)
        · intro _
          cases k with
          | zero =>
            have hlast := hr.2.2.1 rfl
            have he2 : e = ⟨c, d⟩ := by injection hlast
            rw [show i + (0 + 1) - 1 = i by omega, ha, he2]
          | succ k2 =>
            have := hr.2.2.2 (by omega)
            rw [show i + (k2 + 1 + 1) - 1 = i + 1 + (k2 + 1) - 1 by omega]
            exact this

theorem runRetryFrom_unknown {α : Type} (env : Nat → Round α) :
    ∀ (n k i : Nat) (last : Option GrpcError) (e : GrpcError),
      n < k → (∀ j, j < n → isTransportFail (env (i + j)) = true) →
      (env (i + n)).attempt = .fail e → e.code = GrpcCode.unknown →
      (runRetryFrom env i last k).result = .fail (checkAndConvertError e) ∧
      (runRetryFrom env i last k).attemptsMade = n + 1 := by
  intro n
  induction n with
  | zero =>
    intro k i last e hk hprev ha hcode
    cases k with
    | zero => omega
    | succ k =>
      have ha0 : (env i).attempt = .fail e := ha
      rw [runRetryFrom_succ_unknown env i last k e ha0 hcode]
      exact ⟨rfl, rfl⟩
  | succ n ih =>
    intro k i last e hk hprev ha hcode
    cases k with
    | zero => omega
    | succ k =>
      have h0 := hprev 0 (by omega)
      cases ha0 : (env i).attempt with
      | ok v =>
        exfalso
        simp [isTransportFail, ha0] at h0
      | fail e0 =>
        have hne : ¬ e0.code = GrpcCode.unknown := by
          simp [isTransportFail, ha0] at h0
          exact h0
        rw [runRetryFrom_succ_transport env i last k e0 ha0 hne]
        dsimp only
        have hrec := ih k (i + 1) (some e0) e (by omega)
          (fun j hj => by
            have hh := hprev (j + 1) (by omega)
            rw [show i + (j + 1) = i + 1 + j by omega] at hh
            exact hh)
          (by rw [show i + 1 + n = i + (n + 1) by omega]; exact ha)
          hcode
        exact ⟨hrec.1, by rw [hrec.2]⟩

theorem runRetryFrom_ok {α : Type} (env : Nat → Round α) :
    ∀ (k i : Nat) (last : Option GrpcError) (v : α),
      (runRetryFrom env i last k).result = .ok v →
      ∃ j, j < k ∧ (env (i + j)).attempt = .ok v := by
  intro k
  induction k with
  | zero =>
    intro i last v h
    cases last <;> simp [runRetryFrom] at h
  | succ k ih =>
    intro i last v h
    cases ha : (env i).attempt with
    | ok w =>
      rw [runRetryFrom_succ_ok env i last k w ha] at h
      dsimp only at h
      simp only [CallResult.ok.injEq] at h
      subst h
      exact ⟨0, by omega, ha⟩
    | fail e =>
      by_cases hc : e.code = GrpcCode.unknown
      · exfalso
        rw [runRetryFrom_succ_unknown env i last k e ha hc] at h
        dsimp only at h
        simp at h
      · rw [runRetryFrom_succ_transport env i last k e ha hc] at h
        dsimp only at h
        obtain ⟨j, hj, hja⟩ := ih (i + 1) (some e) v h
        exact ⟨j + 1, by omega, by rw [show i + (j + 1) = i + 1 + j by omega]; exact hja⟩

theorem checkAndConvertError_enumerated (e : GrpcError) :
    isEnumerated (checkAndConvertError e) = true ↔
      (e.desc = strErrDBInternal ∨ e.desc = strErrDBInvalidRequest ∨
       e.desc = strErrDBRecordNotFound ∨ e.desc = strErrDBConditionalCheckFailed) := by
  unfold checkAndConvertError
  split_ifs <;> simp_all [isEnumerated]

theorem runListAttempt_ok {α : Type} (s : ListAttempt α) (l : List α) :
    runListAttempt s = .ok l → s = .streamed l .eof := by
  cases s with
  | openErr e => simp [runListAttempt]
  | streamed items ending =>
    cases ending with
    | eof =>
      intro h
      simp only [runListAttempt, Attempt.ok.injEq] at h
      rw [h]
    | recvErr e => simp [runListAttempt]

/-! ### Claims about the RPC client -/

/-- Claim C1, counterexample: the claim says a transport error is never
surfaced to the caller, but when all `maxRetryCount` attempts fail with
transport errors, `CreateDevice` (and every sibling method) returns the last
transport error (`return err` after the loop, `part_000` line 176). -/
theorem c1_transport_surfaced_cex :
    (runRetry envAllTransport).result = .fail (.grpc .unavailable "connection reset") ∧
    GrpcCode.unavailable ≠ GrpcCode.unknown := by decide

/-- Claim C1 (amended): a transport error reaches the caller only when every
one of the 3 attempts failed with a transport error; in that case the surfaced
error is the last attempt's transport error.  While attempts remain, transport
errors are absorbed by the retry envelope. -/
theorem c1_transport_retry_envelope {α : Type} (env : Nat → Round α) (c : GrpcCode) (d : String)
    (hc : c ≠ GrpcCode.unknown) (hres : (runRetry env).result = .fail (.grpc c d)) :
    (runRetry env).attemptsMade = 3 ∧
    (∀ j, j < 3 → isTransportFail (env j) = true) ∧
    (env 2).attempt = .fail ⟨c, d⟩ := by
  have h := runRetryFrom_transport env maxRetryCount 0 none c d hc hres
  refine ⟨h.1, ?_, ?_⟩
  · intro j hj
    have := h.2.1 j hj
    simpa using this
  · have := h.2.2.2 (by decide)
    simpa using this

/-- Witness for the amended claim C1 at the all-transport environment. -/
theorem c1_transport_retry_envelope_witness :
    (runRetry envAllTransport).result = .fail (.grpc .unavailable "connection reset") ∧
    ((runRetry envAllTransport).attemptsMade = 3 ∧
     (∀ j, j < 3 → isTransportFail (envAllTransport j) = true) ∧
     (envAllTransport 2).attempt = .fail ⟨.unavailable, "connection reset"⟩) :=
  ⟨by decide,
   c1_transport_retry_envelope envAllTransport .unavailable "connection reset"
     (by decide) (by decide)⟩

/-- Claim C2, counterexample: the failed handle (id 0) is no longer the
current one (id 1), yet `markClientFailed` reports *no* change, because the
replacing handle is itself already unhealthy (`part_000` lines 91-95 return
`false` before the handle comparison). -/
theorem c2_markfailed_cex :
    c2BadState.cli.id ≠ c2OldHandle.id ∧
    (markClientFailed c2BadState c2OldHandle).2 = false := by decide

/-- Claim C2 (amended): when the current handle is healthy and still `h`,
`markClientFailed` flips it unhealthy, closes its channel and reports no
change; when the current handle is healthy but different it skips and reports
"changed"; when the current handle is already unhealthy it skips (no flip, no
close) and reports no change even if the handle differs from `h`.  The retry
loop sleeps the fixed back-off exactly when no change was reported. -/
theorem c2_markfailed_behavior (s : CliState) (h : Pbclient) :
    (s.cli.isConnGood = true → s.cli.id = h.id →
      markClientFailed s h = (failedState s, false)) ∧
    (s.cli.isConnGood = true → s.cli.id ≠ h.id → markClientFailed s h = (s, true)) ∧
    (s.cli.isConnGood = false → markClientFailed s h = (s, false)) ∧
    ((markClientFailedAndSleep s h).2 = sleepSecondsBeforeRetry ↔
      (markClientFailed s h).2 = false) := by
  refine ⟨?_, ?_, ?_, ?_⟩
  · intro hg he
    simp [markClientFailed, hg, he]
  · intro hg hne
    simp [markClientFailed, hg, hne]
  · intro hb
    simp [markClientFailed, hb]
  · cases hr : (markClientFailed s h).2 <;>
      simp [markClientFailedAndSleep, hr, sleepSecondsBeforeRetry]

/-- Witness for the amended claim C2: a healthy current handle equal to the
failed one is flipped, its id is recorded closed, and no change is reported. -/
theorem c2_markfailed_behavior_witness :
    c2GoodState.cli.isConnGood = true ∧
    markClientFailed c2GoodState c2GoodState.cli = (failedState c2GoodState, false) :=
  ⟨rfl, (c2_markfailed_behavior c2GoodState c2GoodState.cli).1 rfl rfl⟩

/-- Claim C3, counterexample: an application-level (`unknown`-coded) error
whose description matches none of the four stable strings is returned to the
caller untranslated (the `switch` of `checkAndConvertError` falls through to
`return err`, `part_000` line 133), so it is *not* one of the four enumerated
kinds. -/
theorem c3_translate_cex :
    (runRetry envUnknownOther).result = .fail (.grpc .unknown "some unexpected error") ∧
    isEnumerated (.grpc .unknown "some unexpected error") = false ∧
    (runRetry envUnknownOther).attemptsMade = 1 := by decide

/-- Claim C3 (amended): an `unknown`-coded (application-level) error ends the
call immediately — no further attempt — and is passed through
`checkAndConvertError`, which yields one of the four enumerated kinds exactly
when the description equals one of the four stable strings, and otherwise
returns the original error unchanged. -/
theorem c3_unknown_translated {α : Type} (env : Nat → Round α) (n : Nat) (e : GrpcError)
    (hn : n < maxRetryCount) (hprev : ∀ j, j < n → isTransportFail (env j) = true)
    (ha : (env n).attempt = .fail e) (hcode : e.code = GrpcCode.unknown) :
    (runRetry env).result = .fail (checkAndConvertError e) ∧
    (runRetry env).attemptsMade = n + 1 ∧
    (isEnumerated (checkAndConvertError e) = true ↔
      (e.desc = strErrDBInternal ∨ e.desc = strErrDBInvalidRequest ∨
       e.desc = strErrDBRecordNotFound ∨ e.desc = strErrDBConditionalCheckFailed)) := by
  have h := runRetryFrom_unknown env n maxRetryCount 0 none e hn
    (by simpa using hprev) (by simpa using ha) hcode
  exact ⟨h.1, h.2, checkAndConvertError_enumerated e⟩

/-- Witness for the amended claim C3: a first-attempt unknown error with an
unmatched description is surfaced untranslated after exactly one attempt. -/
theorem c3_unknown_translated_witness :
    (runRetry envUnknownOther).result =
      .fail (checkAndConvertError ⟨.unknown, "some unexpected error"⟩) ∧
    (runRetry envUnknownOther).attemptsMade = 0 + 1 ∧
    (isEnumerated (checkAndConvertError ⟨.unknown, "some unexpected error"⟩) = true ↔
      (("some unexpected error" : String) = strErrDBInternal ∨
       ("some unexpected error" : String) = strErrDBInvalidRequest ∨
       ("some unexpected error" : String) = strErrDBRecordNotFound ∨
       ("some unexpected error" : String) = strErrDBConditionalCheckFailed)) :=
  c3_unknown_translated envUnknownOther 0 ⟨.unknown, "some unexpected error"⟩
    (by decide) (fun j hj => absurd hj (Nat.not_lt_zero j)) rfl rfl

/-- Claim C4: every call performs at most `maxRetryCount = 3` attempts (a 4th
attempt is never made), and after an attempt that failed with a transport
error while the connection handle was unchanged the loop sleeps the fixed
back-off `sleepSecondsBeforeRetry = 2` seconds (and retries immediately when
the handle had changed). -/
theorem c4_retry_bound_and_backoff {α : Type} (env : Nat → Round α) :
    (runRetry env).attemptsMade ≤ 3 ∧
    maxRetryCount = 3 ∧
    sleepSecondsBeforeRetry = 2 ∧
    (∀ j opt, (runRetry env).sleeps.get? j = some opt →
      opt = if (env j).otherReconnected then none else some sleepSecondsBeforeRetry) := by
  refine ⟨?_, rfl, rfl, ?_⟩
  · have := runRetryFrom_attempts_le env maxRetryCount 0 none
    simpa [maxRetryCount] using this
  · intro j opt h
    have := runRetryFrom_sleeps env maxRetryCount 0 none j opt h
    simpa using this

/-- Witness for claim C4: in the all-transport environment the first back-off
is recorded and equals the fixed 2 seconds. -/
theorem c4_retry_bound_and_backoff_witness :
    (runRetry envAllTransport).sleeps.get? 0 = some (some sleepSecondsBeforeRetry) ∧
    (some sleepSecondsBeforeRetry : Option Nat) =
      (if (envAllTransport 0).otherReconnected then none
       else some sleepSecondsBeforeRetry) :=
  ⟨by decide,
   (c4_retry_bound_and_backoff envAllTransport).2.2.2 0 (some sleepSecondsBeforeRetry)
     (by decide)⟩

/-- Claim C5: a successful `List*` call returns exactly the items of a stream
that one of its (at most `maxRetryCount`) attempts consumed to end-of-stream;
an attempt whose stream fails mid-way surfaces no partial list — it fails with
the receive error and carries no items. -/
theorem c5_list_full_stream {α : Type} (env : Nat → ListRound α) :
    (∀ l, (runListRetry env).result = .ok l →
      ∃ i, i < maxRetryCount ∧ (env i).stream = .streamed l .eof) ∧
    (∀ (items : List α) (e : GrpcError),
      runListAttempt (.streamed items (.recvErr e)) = .fail e) := by
  constructor
  · intro l h
    obtain ⟨j, hj, hja⟩ :=
      runRetryFrom_ok (fun i => ⟨runListAttempt (env i).stream, (env i).otherReconnected⟩)
        maxRetryCount 0 none l h
    refine ⟨j, hj, ?_⟩
    apply runListAttempt_ok
    simpa using hja
  · intro items e
    rfl

/-- Witness for claim C5: a clean three-item stream is returned whole, and it
is the first attempt's stream consumed to end-of-stream. -/
theorem c5_list_full_stream_witness :
    (runListRetry c5Env).result = .ok [1, 2, 3] ∧
    (∃ i, i < maxRetryCount ∧ (c5Env i).stream = .streamed [1, 2, 3] .eof) :=
  ⟨by decide, (c5_list_full_stream c5Env).1 [1, 2, 3] (by decide)⟩

/-- Claim C9: when the lazy dial fails (here: from the very first call in
`NewControlDBCli` onward), `getCli` returns the existing handle with
`isConnGood = false` and nil conn and stub, and the RPC invocation every
method then performs on that handle dereferences a nil stub — modelled as
`none`, a crash, not a usable call. -/
theorem c9_dial_failure_nil_stub :
    (newControlDBCli false).cli.isConnGood = false ∧
    (newControlDBCli false).cli.hasConn = false ∧
    (newControlDBCli false).cli.hasStub = false ∧
    getCli (newControlDBCli false) false = newControlDBCli false ∧
    invokeOnStub (getCli (newControlDBCli false) false).cli = none := by decide

/-- Claim C10: in every client state the system-table operations are no-ops:
`CreateSystemTables` and `DeleteSystemTables` return nil and issue zero RPCs,
and `SystemTablesReady` returns `(TableStatusActive, true, nil)`. -/
theorem c10_system_tables_noop (s : CliState) :
    createSystemTables s = (none, 0) ∧
    deleteSystemTables s = (none, 0) ∧
    systemTablesReady s = ((TableStatusActive, true, none), 0) :=
  ⟨rfl, rfl, rfl⟩

/-! ### The member-name round trip -/

theorem valLE_natDigitsRevFuel :
    ∀ (fuel n : Nat), n ≤ fuel → valLE (natDigitsRevFuel fuel n) = n := by
  intro fuel
  induction fuel with
  | zero =>
    intro n hn
    interval_cases n
    rfl
  | succ f ih =>
    intro n hn
    cases n with
    | zero => rfl
    | succ m =>
      have hdiv : (m + 1) / 10 ≤ f := by
        have := Nat.div_lt_self (Nat.succ_pos m) (by omega : 1 < 10)
        omega
      simp only [natDigitsRevFuel, valLE]
      rw [ih ((m + 1) / 10) hdiv]
      omega

theorem natDigitsRevFuel_lt10 : ∀ (fuel n d : Nat), d ∈ natDigitsRevFuel fuel n → d < 10 := by
  intro fuel
  induction fuel with
  | zero => intro n d h; simp [natDigitsRevFuel] at h
  | succ f ih =>
    intro n d h
    cases n with
    | zero => simp [natDigitsRevFuel] at h
    | succ m =>
      simp only [natDigitsRevFuel, List.mem_cons] at h
      rcases h with h | h
      · subst h; exact Nat.mod_lt _ (by omega)
      · exact ih _ d h

theorem natDigitsRev_lt10 (n d : Nat) (h : d ∈ natDigitsRev n) : d < 10 :=
  natDigitsRevFuel_lt10 n n d h

theorem valLE_natDigitsRev (n : Nat) : valLE (natDigitsRev n) = n :=
  valLE_natDigitsRevFuel n n (Nat.le_refl n)

theorem natDigitsRev_ne_nil (n : Nat) (h : n ≠ 0) : natDigitsRev n ≠ [] := by
  cases n with
  | zero => exact absurd rfl h
  | succ m => simp [natDigitsRev, natDigitsRevFuel]

theorem digitVal_digitChar (d : Nat) (h : d < 10) : digitVal (digitChar d) = d := by
  interval_cases d <;> decide

theorem isDigitChar_digitChar (d : Nat) (h : d < 10) : isDigitChar (digitChar d) = true := by
  interval_cases d <;> decide

theorem digitChar_ne_dash (d : Nat) (h : d < 10) : digitChar d ≠ '-' := by
  interval_cases d <;> decide

theorem foldl_digits (ds : List Nat) (h : ∀ d ∈ ds, d < 10) : ∀ (acc : Nat),
    List.foldl (fun a c => 10 * a + digitVal c) acc (ds.reverse.map digitChar) =
      acc * 10 ^ ds.length + valLE ds := by
  induction ds with
  | nil => intro acc; simp [valLE]
  | cons d tl ih =>
    intro acc
    simp only [List.reverse_cons, List.map_append, List.map_cons, List.map_nil,
      List.foldl_append, List.foldl_cons, List.foldl_nil]
    rw [ih (fun x hx => h x (by simp [hx]))]
    rw [digitVal_digitChar d (h d (by simp))]
    simp only [valLE, List.length_cons]
    ring

theorem natDecimalChars_ne_nil (n : Nat) : natDecimalChars n ≠ [] := by
  unfold natDecimalChars
  split
  · simp
  · simp only [ne_eq, List.map_eq_nil_iff, List.reverse_eq_nil_iff]
    intro hcon
    exact natDigitsRev_ne_nil n (by assumption) hcon

theorem natDecimalChars_all_digit (n : Nat) : (natDecimalChars n).all isDigitChar = true := by
  unfold natDecimalChars
  split
  · decide
  · rw [List.all_eq_true]
    intro c hc
    simp only [List.mem_map, List.mem_reverse] at hc
    obtain ⟨d, hd, hdc⟩ := hc
    rw [← hdc]
    exact isDigitChar_digitChar d (natDigitsRev_lt10 n d hd)

theorem natDecimalChars_no_dash (n : Nat) : ∀ c ∈ natDecimalChars n, c ≠ '-' := by
  unfold natDecimalChars
  split
  · intro c hc
    simp only [List.mem_singleton] at hc
    subst hc
    decide
  · intro c hc
    simp only [List.mem_map, List.mem_reverse] at hc
    obtain ⟨d, hd, hdc⟩ := hc
    rw [← hdc]
    exact digitChar_ne_dash d (natDigitsRev_lt10 n d hd)

theorem parseNatChars_natDecimalChars (n : Nat) : parseNatChars (natDecimalChars n) = some n := by
  unfold parseNatChars
  rw [if_neg, if_pos (natDecimalChars_all_digit n)]
  · by_cases h0 : n = 0
    · subst h0; decide
    · unfold natDecimalChars
      rw [if_neg h0]
      rw [foldl_digits (natDigitsRev n) (fun d hd => natDigitsRev_lt10 n d hd) 0]
      rw [valLE_natDigitsRev]
      simp
  · simp only [List.isEmpty_iff]
    exact natDecimalChars_ne_nil n

theorem takeWhile_append_all {p : Char → Bool} (as : List Char) (b : Char) (bs : List Char)
    (h1 : ∀ a ∈ as, p a = true) (h2 : p b = false) :
    List.takeWhile p (as ++ b :: bs) = as := by
  induction as with
  | nil => simp [List.takeWhile, h2]
  | cons x xs ih =>
    simp only [List.cons_append, List.takeWhile]
    rw [h1 x (by simp)]
    simp only [List.cons.injEq, true_and]
    exact ih (fun a ha => h1 a (by simp [ha]))

theorem lastField_append (s : List Char) (ds : List Char) (hds : ∀ c ∈ ds, c ≠ '-') :
    (((s ++ '-' :: ds).reverse.takeWhile (fun c => c ≠ '-')).reverse) = ds := by
  rw [List.reverse_append, List.reverse_cons]
  rw [List.append_assoc]
  simp only [List.singleton_append]
  rw [takeWhile_append_all ds.reverse '-' s.reverse ?h1 (by decide)]
  · simp
  case h1 =>
    intro a ha
    simp only [List.mem_reverse] at ha
    simpa using hds a ha

theorem genServiceMemberName_data (svc : String) (i : Nat) :
    (genServiceMemberName svc i).data = svc.data ++ '-' :: natDecimalChars i := by
  unfold genServiceMemberName natDecimalStr
  rw [String.data_append, String.data_append]
  simp

theorem getServiceMemberIndex_gen (svc : String) (i : Nat) :
    getServiceMemberIndex (genServiceMemberName svc i) = some i := by
  unfold getServiceMemberIndex
  rw [genServiceMemberName_data]
  rw [lastField_append svc.data (natDecimalChars i) (natDecimalChars_no_dash i)]
  exact parseNatChars_natDecimalChars i

/-! ### Lemmas about the orchestrator -/

theorem members_checkAndCreateConfigFile (st : Store) (c : String) :
    (checkAndCreateConfigFile st c).1.members = st.members := by
  simp only [checkAndCreateConfigFile]
  split <;> rfl

theorem members_assignIP (st : Store) (n : Nat) (m : String) :
    (assignIP st n m).members = st.members := rfl

theorem members_createStaticIPsForZone :
    ∀ (c : Nat) (st : Store), (createStaticIPsForZone st c).1.members = st.members := by
  intro c
  induction c with
  | zero => intro st; rfl
  | succ c ih =>
    intro st
    simp only [createStaticIPsForZone]
    rw [ih]

theorem members_resolveMemberIP (st : Store) (m : String) :
    (resolveMemberIP st m).1.members = st.members := by
  unfold resolveMemberIP
  split
  · rfl
  · split
    · rfl
    · dsimp only
      split
      · simp [members_assignIP, members_createStaticIPsForZone]
      · simp [members_createStaticIPsForZone]

theorem members_memberIPStep (st : Store) (b : Bool) (m : String) :
    (memberIPStep st b m).1.members = st.members := by
  unfold memberIPStep
  split
  · simp [members_resolveMemberIP]
  · rfl

theorem members_dnsUpsert (st : Store) (f t : String) :
    (dnsUpsert st f t).members = st.members := by
  unfold dnsUpsert
  split <;> rfl

theorem members_dnsStep (st : Store) (b : Bool) (m : String) (ipOpt : Option Nat) :
    (dnsStep st b m ipOpt).members = st.members := by
  unfold dnsStep
  split
  · exact members_dnsUpsert _ _ _
  · rfl

theorem memberNames_checkAndCreateConfigFile (st : Store) (c : String) :
    memberNames (checkAndCreateConfigFile st c).1 = memberNames st := by
  unfold memberNames
  rw [members_checkAndCreateConfigFile]

theorem memberNames_memberIPStep (st : Store) (b : Bool) (m : String) :
    memberNames (memberIPStep st b m).1 = memberNames st := by
  unfold memberNames
  rw [members_memberIPStep]

theorem memberNames_dnsStep (st : Store) (b : Bool) (m : String) (ipOpt : Option Nat) :
    memberNames (dnsStep st b m ipOpt) = memberNames st := by
  unfold memberNames
  rw [members_dnsStep]

theorem attrs_createDevice (st : Store) (svc e : String) :
    (createDevice st svc e).1.attrs = st.attrs := by
  unfold createDevice
  split <;> rfl

theorem services_createDevice (st : Store) (svc e : String) :
    (createDevice st svc e).1.services = st.services := by
  unfold createDevice
  split <;> rfl

theorem members_createDevice (st : Store) (svc e : String) :
    (createDevice st svc e).1.members = st.members := by
  unfold createDevice
  split <;> rfl

theorem attrs_deviceStage (st : Store) (req : CreateReq) :
    (deviceStage st req).1.attrs = st.attrs := by
  simp only [deviceStage]
  split <;> simp [attrs_createDevice]

theorem services_deviceStage (st : Store) (req : CreateReq) :
    (deviceStage st req).1.services = st.services := by
  simp only [deviceStage]
  split <;> simp [services_createDevice]

theorem members_deviceStage (st : Store) (req : CreateReq) :
    (deviceStage st req).1.members = st.members := by
  simp only [deviceStage]
  split <;> simp [members_createDevice]

theorem members_setServiceInitialized (st : Store) (u : String) :
    (setServiceInitialized st u).members = st.members := rfl

theorem memberNames_setServiceInitialized (st : Store) (u : String) :
    memberNames (setServiceInitialized st u) = memberNames st := rfl

theorem getOrCreateService_none (st : Store) (svc f : String) (h : st.services = []) :
    getOrCreateService st svc f = ({ st with services := st.services ++ [(svc, f)] }, f) := by
  unfold getOrCreateService
  rw [h]
  rfl

theorem getOrCreateAttr_none (st : Store) (uuid svc : String) (r : Nat) (b1 b2 : Bool)
    (vols : ServiceVols) (h : st.attrs = []) :
    getOrCreateAttr st uuid svc r b1 b2 vols =
      some ({ st with attrs := st.attrs ++ [⟨uuid, svc, r, b1, b2, .creating, vols⟩] },
            ⟨uuid, svc, r, b1, b2, .creating, vols⟩) := by
  unfold getOrCreateAttr
  rw [h]
  rfl

theorem memberNames_createServiceMember_not_mem (st : Store) (attr : SvcAttr) (m : String)
    (ipOpt : Option Nat) (cfg : List String) (h : m ∉ memberNames st) :
    memberNames (createServiceMember st attr m ipOpt cfg) = memberNames st ++ [m] := by
  unfold createServiceMember
  have hb : (st.members.any fun x => decide (x.memberName = m)) = false := by
    cases hb : (st.members.any fun x => decide (x.memberName = m)) with
    | false => rfl
    | true =>
      exfalso
      rw [List.any_eq_true] at hb
      obtain ⟨x, hx, hxm⟩ := hb
      simp only [decide_eq_true_eq] at hxm
      exact h (by rw [← hxm]; exact List.mem_map_of_mem _ hx)
  rw [hb]
  cases ipOpt with
  | none => simp [memberNames, mkMember]
  | some n => simp [memberNames, mkMember, assignIP]

theorem memberNames_createOneMember (st : Store) (attr : SvcAttr) (c : String) (i : Nat)
    (h : genServiceMemberName attr.serviceName i ∉ memberNames st) :
    memberNames (createOneMember st attr c i) =
      memberNames st ++ [genServiceMemberName attr.serviceName i] := by
  simp only [createOneMember]
  rw [memberNames_dnsStep]
  rw [memberNames_createServiceMember_not_mem]
  · rw [memberNames_memberIPStep, memberNames_checkAndCreateConfigFile]
  · rw [memberNames_memberIPStep, memberNames_checkAndCreateConfigFile]
    exact h

theorem memberNames_createMembers (attr : SvcAttr) (c : String) :
    ∀ (ids : List Nat) (st : Store), ids.Nodup →
      (∀ i ∈ ids, genServiceMemberName attr.serviceName i ∉ memberNames st) →
      memberNames (createMembers st attr c ids) =
        memberNames st ++ ids.map (genServiceMemberName attr.serviceName) := by
  intro ids
  induction ids with
  | nil => intro st _ _; simp [createMembers]
  | cons i tl ih =>
    intro st hd h
    simp only [createMembers]
    rw [ih (createOneMember st attr c i) (List.Nodup.of_cons hd) ?_]
    · rw [memberNames_createOneMember st attr c i (h i (by simp))]
      simp
    · intro j hj
      rw [memberNames_createOneMember st attr c i (h i (by simp))]
      simp only [List.mem_append, List.mem_singleton]
      rintro (hc1 | hc2)
      · exact h j (by simp [hj]) hc1
      · have hji : j ≠ i := by
          intro hji
          subst hji
          exact (List.nodup_cons.mp hd).1 hj
        apply hji
        have hcg := congrArg getServiceMemberIndex hc2
        rw [getServiceMemberIndex_gen, getServiceMemberIndex_gen] at hcg
        exact Option.some.inj hcg

theorem createService_fresh (st : Store) (req : CreateReq) (u : String)
    (hattrs : st.attrs = []) (hsvcs : st.services = []) (hmem : st.members = []) :
    ∃ st2, createService st req u = some (st2, u) ∧
      memberNames st2 = (List.range req.replicas).map (genServiceMemberName req.serviceName) := by
  have hdss : (deviceStage st req).1.services = [] := by
    rw [services_deviceStage]; exact hsvcs
  have hda : (deviceStage st req).1.attrs = [] := by
    rw [attrs_deviceStage]; exact hattrs
  have hdm : (deviceStage st req).1.members = [] := by
    rw [members_deviceStage]; exact hmem
  simp only [createService]
  rw [getOrCreateService_none]
  swap
  · exact hdss
  dsimp only
  rw [getOrCreateAttr_none]
  swap
  · exact hda
  dsimp only
  refine ⟨_, rfl, ?_⟩
  rw [memberNames_setServiceInitialized]
  rw [memberNames_createMembers]
  rotate_left
  · exact List.nodup_range _
  · intro j hj
    simp [memberNames, hdm]
  simp [memberNames, hdm]

/-! ### Claims about the orchestrator scenarios -/

/-- Claim C6: in the static-IP retry scenario (journal volume required, the
Device row `/dev/loop1` and the Service row pre-created), `CreateService`
returns the pre-existing UUID, the ServiceAttr names `/dev/loop1` as primary
and `/dev/loop2` as journal device, and exactly 3 members exist with static
addresses `10.0.0.4`, `10.0.0.5`, `10.0.0.6`. -/
theorem c6_static_ip_retry :
    c6Result.map (fun p => p.2) = some "uuid-pre" ∧
    c6Result.map (fun p => p.1.attrs.map
        (fun a => (a.uuid, a.vols.primaryDeviceName, a.vols.journalDeviceName))) =
      some [("uuid-pre", "/dev/loop1", some "/dev/loop2")] ∧
    c6Result.map (fun p => p.1.members.map (fun m => (m.memberName, m.staticIP.map ipStr))) =
      some [("service-0-0", some "10.0.0.4"), ("service-0-1", some "10.0.0.5"),
            ("service-0-2", some "10.0.0.6")] :=
  ⟨rfl, rfl, rfl⟩

/-- Claim C7: with Device row, Service row, ServiceAttr (status `creating`), a
static address assigned to member 0, the member-0 row, and one leftover
unassigned address all pre-created, `CreateService` returns the pre-existing
UUID; afterwards exactly 3 members exist with dense ordinals 0-2 and addresses
ascending from the first host (4, 5, 6), and the leftover unassigned address
(host 5) has been claimed by member 1. -/
theorem c7_precreation_converges :
    c7Result.map (fun p => p.2) = some c7UUID ∧
    c7g.1.ipRows = [⟨4, some "service-3-0"⟩, ⟨5, none⟩] ∧
    c7Result.map (fun p => p.1.members.map (fun m => (m.memberName, m.staticIP))) =
      some [("service-3-0", some 4), ("service-3-1", some 5), ("service-3-2", some 6)] ∧
    c7Result.map (fun p => p.1.members.map (fun m => getServiceMemberIndex m.memberName)) =
      some [some 0, some 1, some 2] ∧
    c7Result.map (fun p => p.1.ipRows.map (fun r => (r.ip, r.memberName))) =
      some [(4, some "service-3-0"), (5, some "service-3-1"), (6, some "service-3-2")] :=
  ⟨rfl, rfl, rfl, rfl, rfl⟩

/-- Claim C8: `GenServiceMemberName` followed by `GetServiceMemberIndex` is
the identity on every ordinal for every service name, and the members a fresh
`CreateService` run creates carry exactly the ordinals `0 .. Replicas-1`, in
order. -/
theorem c8_member_name_roundtrip :
    (∀ svc i, getServiceMemberIndex (genServiceMemberName svc i) = some i) ∧
    (∀ (req : CreateReq) (u : String),
      createdOrdinals req u = (List.range req.replicas).map some) := by
  refine ⟨getServiceMemberIndex_gen, ?_⟩
  intro req u
  obtain ⟨st2, hcs, hnames⟩ := createService_fresh emptyStore req u rfl rfl rfl
  unfold createdOrdinals
  rw [hcs]
  dsimp only
  have hmm : st2.members.map (fun m => getServiceMemberIndex m.memberName) =
      (memberNames st2).map getServiceMemberIndex := by
    simp [memberNames, List.map_map, Function.comp]
  rw [hmm, hnames, List.map_map]
  apply List.map_congr_left
  intro i _
  simp only [Function.comp_apply]
  exact getServiceMemberIndex_gen req.serviceName i

end Firecamp
